import Mathlib

/-!
Verification of the bike-service repository (Go): a shallow embedding of the
domain model (`internal/core/domain`), the service layer
(`internal/core/services`), the postgres repositories and the HTTP handlers,
together with theorems settling the specification claims.

Modelling conventions:
* A `uuid.UUID` is modelled by its canonical (lower-case, hyphenated) string
  rendering; `uuid.Parse` validates/normalises, `UUID.String()` is the
  identity, and `uuid.Nil` is the all-zero string.
* Timestamps and Go `int` fields are modelled by `Int`; the Go zero `time.Time`
  is modelled by `0`.
* Collaborator calls (repository, cache) are modelled by explicit outcome
  parameters, and every service operation additionally returns the list of
  side-effecting calls it issued (its effect trace), in order.
-/

namespace BikeSvc

/-- A UUID, modelled by its canonical string rendering. -/
abbrev Uuid := String

/-- The zero UUID `uuid.Nil`. -/
def nilUuid : Uuid := "00000000-0000-0000-0000-000000000000"

/-- Hex-digit test, as the `xtob` table of the uuid library accepts. -/
def isHexDigit (c : Char) : Bool :=
  ('0' ≤ c && c ≤ '9') || ('a' ≤ c && c ≤ 'f') || ('A' ≤ c && c ≤ 'F')

/-- Positions of the four hyphens in the canonical 36-character form. -/
def hyphenPos (i : Nat) : Bool :=
  i = 8 || i = 13 || i = 18 || i = 23

/-- Well-formedness of the canonical 36-character form
`xxxxxxxx-xxxx-xxxx-xxxx-xxxxxxxxxxxx`. -/
def ok36 (cs : List Char) : Bool :=
  cs.length = 36 &&
    (List.range 36).all (fun i =>
      if hyphenPos i then cs.getD i ' ' = '-' else isHexDigit (cs.getD i ' '))

/-- Canonicalisation: lower-case the hex digits (hyphens are unaffected). -/
def normChars (cs : List Char) : List Char :=
  cs.map Char.toLower

/-- Insert the canonical hyphens into a 32-character bare-hex form. -/
def addHyphens (cs : List Char) : List Char :=
  cs.take 8 ++ '-' :: (cs.drop 8).take 4 ++ '-' :: (cs.drop 12).take 4
    ++ '-' :: (cs.drop 16).take 4 ++ '-' :: cs.drop 20

/-- Parse the canonical 36-character form into a canonical `Uuid`. -/
def parse36 (cs : List Char) : Option Uuid :=
  if ok36 cs then some (String.mk (normChars cs)) else none

/-- Model of `uuid.Parse` of the google/uuid library (the external collaborator used by
the handlers and services): accepts the canonical 36-character form, the
`urn:uuid:`-prefixed form, the braced form (whose first and last characters the
library does not actually inspect) and the 32-character bare-hex form, and
yields the canonical rendering. -/
def uuidParse (s : String) : Option Uuid :=
  let cs := s.data
  if cs.length = 36 then parse36 cs
  else if cs.length = 45 then
    if normChars (cs.take 9) = "urn:uuid:".data then parse36 (cs.drop 9) else none
  else if cs.length = 38 then parse36 ((cs.drop 1).take 36)
  else if cs.length = 32 then
    if cs.all isHexDigit then some (String.mk (addHyphens (normChars cs))) else none
  else none

/-- Bike record (`internal/core/domain/Bike.go`): `user_id`, `bike_id`,
`bike_name`, `type`, `model`, `year`, `mileage`, `created_at`, `updated_at`.
The struct declares NO `validate` tags. The `Components` slice is kept out of
the row (it is never stored; composition is modelled as a pair). -/
structure Bike where
  userId : Uuid
  bikeId : Uuid
  bikeName : String
  type : String
  model : String
  year : Int
  mileage : Int
  createdAt : Int
  updatedAt : Int
deriving Repr, DecidableEq

/-- Component record (`internal/core/domain/bike_struct.go`). -/
structure Component where
  id : Uuid
  bikeId : Uuid
  name : String
  brand : String
  model : String
  installedAt : Int
  installedMileage : Int
  maxMileage : Int
  createdAt : Int
  updatedAt : Int
deriving Repr, DecidableEq

/-- Model of `Component.CurrentMileage` (domain/bike_struct.go): bike mileage minus the
mileage at installation. -/
def Component.currentMileage (c : Component) (bikeMileage : Int) : Int :=
  bikeMileage - c.installedMileage

/-- Model of `Component.NeedsReplacement` (domain/bike_struct.go): current mileage has
reached `max_mileage`. -/
def Component.needsReplacement (c : Component) (bikeMileage : Int) : Bool :=
  c.maxMileage ≤ c.currentMileage bikeMileage

/-- The go-playground `validate` rules carried by the `Component` struct's
tags: `bike_id` required, `name` required, `brand`/`model` max=100,
`installed_at` required, `installed_mileage` min=0, `max_mileage`
required,min=1,max=1000000. On a Go value, `required` means "not the zero
value". -/
def componentChecks : List (Component → Bool) :=
  [ fun c => c.bikeId ≠ nilUuid
  , fun c => c.name ≠ ""
  , fun c => c.brand.length ≤ 100
  , fun c => c.model.length ≤ 100
  , fun c => c.installedAt ≠ 0
  , fun c => 0 ≤ c.installedMileage
  , fun c => c.maxMileage ≠ 0
  , fun c => 1 ≤ c.maxMileage
  , fun c => c.maxMileage ≤ 1000000 ]

/-- Model of `validate.Struct` on a `Component`: all tag rules hold. -/
def validateComponent (c : Component) : Bool :=
  componentChecks.all (fun chk => chk c)

/-- The go-playground `validate` rules carried by the `Bike` struct's tags:
the `Bike` struct in `internal/core/domain/Bike.go` declares no `validate`
tags at all, so the rule list is empty. -/
def bikeChecks : List (Bike → Bool) := []

/-- Model of `validate.Struct` on a `Bike`: all tag rules hold (there are none). -/
def validateBike (b : Bike) : Bool :=
  bikeChecks.all (fun chk => chk b)

/-- The row merge performed by `BikeRepository.UpdateBike`'s SQL
(`unnamed/part_004`): every updatable column is set to
`COALESCE(NULLIF(input, zero), old)`, `updated_at` to `CURRENT_TIMESTAMP`;
`user_id`, `bike_id` and `created_at` are not in the SET list. -/
def mergeBike (old input : Bike) (now : Int) : Bike :=
  { userId := old.userId
    bikeId := old.bikeId
    bikeName := if input.bikeName = "" then old.bikeName else input.bikeName
    type := if input.type = "" then old.type else input.type
    model := if input.model = "" then old.model else input.model
    year := if input.year = 0 then old.year else input.year
    mileage := if input.mileage = 0 then old.mileage else input.mileage
    createdAt := old.createdAt
    updatedAt := now }

/-- The row merge performed by `ComponentRepository.UpdateComponent`'s SQL
(`unnamed/part_003`): `COALESCE(NULLIF(input, zero), old)` on every updatable
column (the zero timestamp for `installed_at`), `updated_at` to
`CURRENT_TIMESTAMP`; `id`, `bike_id` and `created_at` are not in the SET
list. -/
def mergeComponent (old input : Component) (now : Int) : Component :=
  { id := old.id
    bikeId := old.bikeId
    name := if input.name = "" then old.name else input.name
    brand := if input.brand = "" then old.brand else input.brand
    model := if input.model = "" then old.model else input.model
    installedAt := if input.installedAt = 0 then old.installedAt else input.installedAt
    installedMileage :=
      if input.installedMileage = 0 then old.installedMileage else input.installedMileage
    maxMileage := if input.maxMileage = 0 then old.maxMileage else input.maxMileage
    createdAt := old.createdAt
    updatedAt := now }

/-- Errors a repository call can yield, as the postgres adapters classify them
(`unnamed/part_003`, `unnamed/part_004`): the not-found message on
`sql.ErrNoRows` or zero rows affected, pq 23502 ("required field is missing"),
pq 23503 (owner/parent "does not exist"), or any other storage failure. -/
inductive RepoErr where
  | notFound
  | requiredMissing
  | fkMissing
  | other
deriving Repr, DecidableEq

/-- Errors a service call can yield: its own validation / invalid-identifier
errors, or a repository error passed through unchanged. -/
inductive SvcErr where
  | validation
  | invalidId
  | notFound
  | requiredMissing
  | fkMissing
  | storage
deriving Repr, DecidableEq

/-- Service error corresponding to a repository error returned as-is
(`return nil, err` in each service method). -/
def liftRepo : RepoErr → SvcErr
  | .notFound => .notFound
  | .requiredMissing => .requiredMissing
  | .fkMissing => .fkMissing
  | .other => .storage

/-- Side-effecting collaborator calls a service operation can issue. -/
inductive Eff where
  | repoCreateBike (b : Bike)
  | repoGetBike (id : Uuid)
  | repoGetBikesByUser (id : Uuid)
  | repoUpdateBike (b : Bike)
  | repoDeleteBike (id : Uuid)
  | repoCreateComp (c : Component)
  | repoGetComp (id : Uuid)
  | repoGetCompsByBike (id : Uuid)
  | repoUpdateComp (c : Component)
  | repoDeleteComp (id : Uuid)
  | cacheGet (key : String)
  | cacheSet (key : String) (ttl : Nat)
  | cacheDelete (key : String)
deriving Repr, DecidableEq

/-- The keys of the cache-delete calls in a trace, in order. -/
def cacheDeletes (tr : List Eff) : List String :=
  tr.filterMap (fun e =>
    match e with
    | .cacheDelete k => some k
    | _ => none)

/-- Whether a trace contains any storage write (insert, update or delete). -/
def hasStorageWrite (tr : List Eff) : Bool :=
  tr.any (fun e =>
    match e with
    | .repoCreateBike _ => true
    | .repoUpdateBike _ => true
    | .repoDeleteBike _ => true
    | .repoCreateComp _ => true
    | .repoUpdateComp _ => true
    | .repoDeleteComp _ => true
    | _ => false)

/-- A cached byte string: either the JSON marshalling of a bike, or bytes that
do not unmarshal into one. -/
inductive CacheVal where
  | bikeJson (b : Bike)
  | junk
deriving Repr, DecidableEq

/-- Model of `json.Unmarshal` into a `domain.Bike`. -/
def unmarshalBike : CacheVal → Option Bike
  | .bikeJson b => some b
  | .junk => none

/-- The constant `time.Minute` in nanoseconds (a Go `time.Duration`). -/
def goMinute : Nat := 60000000000

/-- Model of `BikeService.CreateBike` (services/bikeService.go): validate the struct,
assign a fresh identity when the input's is `uuid.Nil`, insert. No cache call
on any path. `fresh` stands for the `uuid.New()` draw, `repoRes` for the
insert's outcome. -/
def createBike (b : Bike) (fresh : Uuid) (repoRes : Except RepoErr Bike) :
    Except SvcErr Bike × List Eff :=
  if validateBike b = false then (.error .validation, [])
  else
    let b0 := if b.bikeId = nilUuid then { b with bikeId := fresh } else b
    match repoRes with
    | .error e => (.error (liftRepo e), [.repoCreateBike b0])
    | .ok created => (.ok created, [.repoCreateBike b0])

/-- Model of `BikeService.GetBikeByID` (services/bikeService.go): parse the id, try the
cache under key `bike:<raw id string>`; on a hit that unmarshals, return it
without touching storage; otherwise read storage and, on success, best-effort
`Set` the marshalled bike with a 15-minute TTL (`json.Marshal` of a `Bike`
cannot fail, and a `Set` failure only logs — `setOk` never reaches the
result). -/
def getBikeByID (idStr : String) (cacheRes : Except Unit CacheVal)
    (repoRes : Except RepoErr Bike) (_setOk : Bool) :
    Except SvcErr Bike × List Eff :=
  match uuidParse idStr with
  | none => (.error .invalidId, [])
  | some u =>
    let key := "bike:" ++ idStr
    match cacheRes with
    | .ok v =>
      match unmarshalBike v with
      | some cached => (.ok cached, [.cacheGet key])
      | none =>
        match repoRes with
        | .error e => (.error (liftRepo e), [.cacheGet key, .repoGetBike u])
        | .ok bike =>
          (.ok bike, [.cacheGet key, .repoGetBike u, .cacheSet key (15 * goMinute)])
    | .error _ =>
      match repoRes with
      | .error e => (.error (liftRepo e), [.cacheGet key, .repoGetBike u])
      | .ok bike =>
        (.ok bike, [.cacheGet key, .repoGetBike u, .cacheSet key (15 * goMinute)])

/-- Model of `BikeService.UpdateBike` (services/bikeService.go): validate, write through
the repository, and only after a successful write delete the cache entry
`bike:<bike_id>` (a failed delete only logs — `delOk` never reaches the
result). -/
def updateBike (b : Bike) (repoRes : Except RepoErr Bike) (_delOk : Bool) :
    Except SvcErr Bike × List Eff :=
  if validateBike b = false then (.error .validation, [])
  else
    match repoRes with
    | .error e => (.error (liftRepo e), [.repoUpdateBike b])
    | .ok updated =>
      (.ok updated, [.repoUpdateBike b, .cacheDelete ("bike:" ++ b.bikeId)])

/-- Model of `BikeService.DeleteBike` (services/bikeService.go): parse the id, delete
through the repository, and only after a successful delete remove the cache
entry `bike:<raw id string>`. -/
def deleteBike (idStr : String) (repoRes : Except RepoErr Unit) (_delOk : Bool) :
    Except SvcErr Unit × List Eff :=
  match uuidParse idStr with
  | none => (.error .invalidId, [])
  | some u =>
    match repoRes with
    | .error e => (.error (liftRepo e), [.repoDeleteBike u])
    | .ok _ => (.ok (), [.repoDeleteBike u, .cacheDelete ("bike:" ++ idStr)])

/-- Model of `BikeService.GetBikeWithComponents` (services/bikeService.go): parse the
id, load the bike straight from the repository (no cache), then load its
components; a component-lookup failure degrades to an empty list instead of
failing the call. -/
def getBikeWithComponents (idStr : String) (bikeRes : Except RepoErr Bike)
    (compsRes : Except RepoErr (List Component)) :
    Except SvcErr (Bike × List Component) × List Eff :=
  match uuidParse idStr with
  | none => (.error .invalidId, [])
  | some u =>
    match bikeRes with
    | .error e => (.error (liftRepo e), [.repoGetBike u])
    | .ok bike =>
      match compsRes with
      | .error _ => (.ok (bike, []), [.repoGetBike u, .repoGetCompsByBike u])
      | .ok comps => (.ok (bike, comps), [.repoGetBike u, .repoGetCompsByBike u])

/-- Model of `ComponentService.CreateComponent` (`unnamed/part_000`): validate the
struct, assign a fresh identity when the input's is `uuid.Nil`, insert, and
only after a successful insert delete the cache entry `bike:<bike_id>` of the
owning bike. -/
def createComponent (c : Component) (fresh : Uuid)
    (repoRes : Except RepoErr Component) (_delOk : Bool) :
    Except SvcErr Component × List Eff :=
  if validateComponent c = false then (.error .validation, [])
  else
    let c0 := if c.id = nilUuid then { c with id := fresh } else c
    match repoRes with
    | .error e => (.error (liftRepo e), [.repoCreateComp c0])
    | .ok created =>
      (.ok created, [.repoCreateComp c0, .cacheDelete ("bike:" ++ c0.bikeId)])

/-- Model of `ComponentService.GetComponentByID` (`unnamed/part_000`): parse the id and
read through the repository. -/
def getComponentByID (idStr : String) (repoRes : Except RepoErr Component) :
    Except SvcErr Component × List Eff :=
  match uuidParse idStr with
  | none => (.error .invalidId, [])
  | some u =>
    match repoRes with
    | .error e => (.error (liftRepo e), [.repoGetComp u])
    | .ok c => (.ok c, [.repoGetComp u])

/-- Model of `ComponentService.UpdateComponent` (`unnamed/part_000`): validate, write
through the repository, and only after a successful write delete the cache
entry `bike:<bike_id>`; the key is built from the `BikeID` the repository's
RETURNING clause scanned back, i.e. the stored row's `bike_id` (which the
update statement never changes). -/
def updateComponent (c : Component) (repoRes : Except RepoErr Component)
    (_delOk : Bool) : Except SvcErr Component × List Eff :=
  if validateComponent c = false then (.error .validation, [])
  else
    match repoRes with
    | .error e => (.error (liftRepo e), [.repoUpdateComp c])
    | .ok updated =>
      (.ok updated, [.repoUpdateComp c, .cacheDelete ("bike:" ++ updated.bikeId)])

/-- Model of `ComponentService.DeleteComponent` (`unnamed/part_000`): parse the id,
first load the component (to learn its `bike_id`), abort if that load fails,
otherwise delete and — only after a successful delete — remove the cache entry
`bike:<bike_id>` of the loaded component's owning bike. -/
def deleteComponent (idStr : String) (getRes : Except RepoErr Component)
    (delRes : Except RepoErr Unit) (_delOk : Bool) :
    Except SvcErr Unit × List Eff :=
  match uuidParse idStr with
  | none => (.error .invalidId, [])
  | some u =>
    match getRes with
    | .error e => (.error (liftRepo e), [.repoGetComp u])
    | .ok comp =>
      match delRes with
      | .error e => (.error (liftRepo e), [.repoGetComp u, .repoDeleteComp u])
      | .ok _ =>
        (.ok (), [.repoGetComp u, .repoDeleteComp u,
          .cacheDelete ("bike:" ++ comp.bikeId)])

/-- Requester role (domain/tokenPayload.go). -/
inductive Role where
  | admin
  | appUser
deriving Repr, DecidableEq

/-- Model of `domain.TokenPayload`: the per-request identity produced by token
verification. -/
structure TokenPayload where
  id : Uuid
  userId : Uuid
  role : Role
deriving Repr, DecidableEq

/-- HTTP outcome of a handler, by status code. -/
inductive HOut where
  | unauthorized
  | badRequest
  | forbidden
  | notFoundOut
  | serverError
  | created
  | okOut
deriving Repr, DecidableEq

/-- The ownership check every handler runs once the owning bike is loaded
(`payload.Role != domain.Admin && payload.UserID != bike.UserID`): deny with
Forbidden, else continue. -/
def authz (p : TokenPayload) (owner : Uuid) (cont : HOut) : HOut :=
  if p.role ≠ Role.admin ∧ p.userId ≠ owner then .forbidden else cont

/-- The `ComponentRequest` body of the create-component endpoint. -/
structure CompReq where
  bikeId : String
  name : String
  brand : String
  model : String
  installedMileage : Int
  maxMileage : Int
deriving Repr, DecidableEq

/-- The `UpdateBike` request body: absent fields are `none`. -/
structure UpdBikeReq where
  model : Option String
  type : Option String
  mileage : Option Int
deriving Repr, DecidableEq

/-- The `UpdateComponent` request body: absent fields are `none`. -/
structure UpdCompReq where
  name : Option String
  brand : Option String
  model : Option String
  installedMileage : Option Int
  maxMileage : Option Int
deriving Repr, DecidableEq

/-- Outcomes of the service calls a handler can make during one request, per
argument, plus the request clock (for `time.Now()` in CreateComponent). -/
structure HEnv where
  bikeSvc : String → Except SvcErr Bike
  bikeWithComps : String → Except SvcErr (Bike × List Component)
  compSvc : String → Except SvcErr Component
  updateBikeSvc : Bike → Except SvcErr Bike
  deleteBikeSvc : String → Except SvcErr Unit
  createCompSvc : Component → Except SvcErr Component
  updateCompSvc : Component → Except SvcErr Component
  deleteCompSvc : String → Except SvcErr Unit
  userSvc : String → Option Unit
  now : Int

/-- The nine authorization-checked operations (`unnamed/part_002` and
`component_handler.go`), with the request inputs each carries; a `none` body
stands for a request whose JSON failed to bind. -/
inductive Op where
  | getBike (id : String)
  | getBikeWithComponents (id : String)
  | getBikeWithUser (id : String)
  | updateBike (id : String) (body : Option UpdBikeReq)
  | deleteBike (id : String)
  | getComponent (id : String)
  | createComponent (body : Option CompReq)
  | updateComponent (id : String) (body : Option UpdCompReq)
  | deleteComponent (id : String)
deriving Repr, DecidableEq

/-- The bike built by the UpdateBike handler from the path id, the loaded
bike's owner and the optional body fields (unset fields stay at the Go zero
value). -/
def buildUpdateBike (parsed : Uuid) (owner : Uuid) (req : UpdBikeReq) : Bike :=
  { userId := owner
    bikeId := parsed
    bikeName := ""
    type := req.type.getD ""
    model := req.model.getD ""
    year := 0
    mileage := req.mileage.getD 0
    createdAt := 0
    updatedAt := 0 }

/-- The component built by the CreateComponent handler from the body and
`time.Now()`. -/
def buildCreateComp (parsed : Uuid) (req : CompReq) (now : Int) : Component :=
  { id := nilUuid
    bikeId := parsed
    name := req.name
    brand := req.brand
    model := req.model
    installedAt := now
    installedMileage := req.installedMileage
    maxMileage := req.maxMileage
    createdAt := 0
    updatedAt := 0 }

/-- The component built by the UpdateComponent handler from the path id, the
loaded component's `bike_id` and the optional body fields. -/
def buildUpdateComp (parsed : Uuid) (bikeId : Uuid) (req : UpdCompReq) : Component :=
  { id := parsed
    bikeId := bikeId
    name := req.name.getD ""
    brand := req.brand.getD ""
    model := req.model.getD ""
    installedAt := 0
    installedMileage := req.installedMileage.getD 0
    maxMileage := req.maxMileage.getD 0
    createdAt := 0
    updatedAt := 0 }

/-- The HTTP handlers (`unnamed/part_002`, `component_handler.go`), one
operation per constructor: check the auth payload, load the target (a
component's owning bike is loaded by the component's `bike_id`), run the
ownership check, then perform the operation. -/
def runOp (env : HEnv) (payload : Option TokenPayload) : Op → HOut
  | .getBike id =>
    match payload with
    | none => .unauthorized
    | some p =>
      match env.bikeSvc id with
      | .error _ => .notFoundOut
      | .ok bike => authz p bike.userId .okOut
  | .getBikeWithComponents id =>
    match payload with
    | none => .unauthorized
    | some p =>
      match env.bikeWithComps id with
      | .error _ => .notFoundOut
      | .ok bc => authz p bc.1.userId .okOut
  | .getBikeWithUser id =>
    match payload with
    | none => .unauthorized
    | some p =>
      match env.bikeSvc id with
      | .error _ => .notFoundOut
      | .ok bike =>
        authz p bike.userId
          (match env.userSvc bike.userId with
           | _ => .okOut)
  | .updateBike id body =>
    match payload with
    | none => .unauthorized
    | some p =>
      match env.bikeSvc id with
      | .error _ => .notFoundOut
      | .ok existing =>
        authz p existing.userId
          (match body with
           | none => .badRequest
           | some req =>
             match uuidParse id with
             | none => .badRequest
             | some parsed =>
               match env.updateBikeSvc (buildUpdateBike parsed existing.userId req) with
               | .error _ => .serverError
               | .ok _ => .okOut)
  | .deleteBike id =>
    match payload with
    | none => .unauthorized
    | some p =>
      match env.bikeSvc id with
      | .error _ => .notFoundOut
      | .ok existing =>
        authz p existing.userId
          (match env.deleteBikeSvc id with
           | .error _ => .serverError
           | .ok _ => .okOut)
  | .getComponent id =>
    match payload with
    | none => .unauthorized
    | some p =>
      match env.compSvc id with
      | .error _ => .notFoundOut
      | .ok comp =>
        match env.bikeSvc comp.bikeId with
        | .error _ => .notFoundOut
        | .ok bike => authz p bike.userId .okOut
  | .createComponent body =>
    match payload with
    | none => .unauthorized
    | some p =>
      match body with
      | none => .badRequest
      | some req =>
        match env.bikeSvc req.bikeId with
        | .error _ => .notFoundOut
        | .ok bike =>
          authz p bike.userId
            (match uuidParse req.bikeId with
             | none => .badRequest
             | some parsed =>
               match env.createCompSvc (buildCreateComp parsed req env.now) with
               | .error _ => .serverError
               | .ok _ => .created)
  | .updateComponent id body =>
    match payload with
    | none => .unauthorized
    | some p =>
      match env.compSvc id with
      | .error _ => .notFoundOut
      | .ok existing =>
        match env.bikeSvc existing.bikeId with
        | .error _ => .notFoundOut
        | .ok bike =>
          authz p bike.userId
            (match body with
             | none => .badRequest
             | some req =>
               match uuidParse id with
               | none => .badRequest
               | some parsed =>
                 match env.updateCompSvc (buildUpdateComp parsed existing.bikeId req) with
                 | .error _ => .serverError
                 | .ok _ => .okOut)
  | .deleteComponent id =>
    match payload with
    | none => .unauthorized
    | some p =>
      match env.compSvc id with
      | .error _ => .notFoundOut
      | .ok existing =>
        match env.bikeSvc existing.bikeId with
        | .error _ => .notFoundOut
        | .ok bike =>
          authz p bike.userId
            (match env.deleteCompSvc id with
             | .error _ => .serverError
             | .ok _ => .okOut)

/-- The owning bike an operation's ownership check is evaluated against, as
the handlers resolve it: bike operations load the bike itself; component
operations load the component first and then its parent bike by the
component's `bike_id`; create-component loads the bike named in the body. -/
def ownerBike (env : HEnv) : Op → Option Bike
  | .getBike id => (env.bikeSvc id).toOption
  | .getBikeWithComponents id => ((env.bikeWithComps id).toOption).map Prod.fst
  | .getBikeWithUser id => (env.bikeSvc id).toOption
  | .updateBike id _ => (env.bikeSvc id).toOption
  | .deleteBike id => (env.bikeSvc id).toOption
  | .getComponent id =>
    ((env.compSvc id).toOption).bind (fun c => (env.bikeSvc c.bikeId).toOption)
  | .createComponent body =>
    body.bind (fun req => (env.bikeSvc req.bikeId).toOption)
  | .updateComponent id _ =>
    ((env.compSvc id).toOption).bind (fun c => (env.bikeSvc c.bikeId).toOption)
  | .deleteComponent id =>
    ((env.compSvc id).toOption).bind (fun c => (env.bikeSvc c.bikeId).toOption)

/-! Concrete sample data used by witnesses and counterexamples. -/

/-- A sample user id. -/
def uidA : Uuid := "aaaaaaaa-aaaa-aaaa-aaaa-aaaaaaaaaaaa"

/-- A sample bike id. -/
def uidB : Uuid := "bbbbbbbb-bbbb-bbbb-bbbb-bbbbbbbbbbbb"

/-- A sample component id. -/
def uidC : Uuid := "cccccccc-cccc-cccc-cccc-cccccccccccc"

/-- A sample freshly-drawn id. -/
def uidD : Uuid := "dddddddd-dddd-dddd-dddd-dddddddddddd"

/-- A sample stored bike owned by `uidA`, mileage 500. -/
def bikeA : Bike :=
  { userId := uidA, bikeId := uidB, bikeName := "trek", type := "mtb"
    model := "x-caliber", year := 2020, mileage := 500
    createdAt := 1, updatedAt := 2 }

/-- An update input whose every updatable field is the Go zero value. -/
def bikeZeroInput : Bike :=
  { userId := nilUuid, bikeId := uidB, bikeName := "", type := ""
    model := "", year := 0, mileage := 0, createdAt := 0, updatedAt := 0 }

/-- A malformed bike: owner `uuid.Nil`, empty type, negative mileage. -/
def badBike : Bike :=
  { userId := nilUuid, bikeId := nilUuid, bikeName := "", type := ""
    model := "", year := 0, mileage := -5, createdAt := 0, updatedAt := 0 }

/-- A sample stored component of `bikeA`: the spec scenario's frame,
installed at mileage 100 with max mileage 400. -/
def compA : Component :=
  { id := uidC, bikeId := uidB, name := "frame", brand := "", model := ""
    installedAt := 10, installedMileage := 100, maxMileage := 400
    createdAt := 1, updatedAt := 2 }

/-- An update input whose every updatable field is the Go zero value. -/
def compZeroInput : Component :=
  { id := uidC, bikeId := uidB, name := "", brand := "", model := ""
    installedAt := 0, installedMileage := 0, maxMileage := 0
    createdAt := 0, updatedAt := 0 }

/-- A sample handler environment: `bikeA` is loadable under `uidB`, `compA`
under `uidC`, every mutation succeeds. -/
def envA : HEnv :=
  { bikeSvc := fun id => if id = uidB then Except.ok bikeA else Except.error SvcErr.notFound
    bikeWithComps := fun id =>
      if id = uidB then Except.ok (bikeA, [compA]) else Except.error SvcErr.notFound
    compSvc := fun id => if id = uidC then Except.ok compA else Except.error SvcErr.notFound
    updateBikeSvc := fun _ => Except.ok bikeA
    deleteBikeSvc := fun _ => Except.ok ()
    createCompSvc := fun _ => Except.ok compA
    updateCompSvc := fun _ => Except.ok compA
    deleteCompSvc := fun _ => Except.ok ()
    userSvc := fun _ => none
    now := 10 }

/-- A non-admin requester who does not own `bikeA`. -/
def tokenMallory : TokenPayload := { id := uidD, userId := uidC, role := Role.appUser }

/-- An admin requester who does not own `bikeA`. -/
def tokenAdmin : TokenPayload := { id := uidD, userId := uidC, role := Role.admin }

/-! Helper lemmas. -/

/-- Strings with equal character lists are equal. -/
theorem strDataEq (a b : String) (h : a.data = b.data) : a = b := by
  cases a
  cases b
  simp only at h
  exact congrArg String.mk h

/-- Appending a common front string is injective. -/
theorem strAppendCancel (p a b : String) (h : p ++ a = p ++ b) : a = b := by
  have hd : (p ++ a).data = (p ++ b).data := by rw [h]
  simp [String.data_append] at hd
  exact strDataEq a b hd

/-- An admin passes the ownership check unconditionally. -/
theorem authz_admin (p : TokenPayload) (owner : Uuid) (cont : HOut)
    (h : p.role = Role.admin) : authz p owner cont = cont := by
  simp [authz, h]

/-- A non-admin whose user id differs from the owner's is denied. -/
theorem authz_deny (p : TokenPayload) (owner : Uuid) (cont : HOut)
    (h1 : p.role ≠ Role.admin) (h2 : p.userId ≠ owner) :
    authz p owner cont = HOut.forbidden := by
  simp [authz, h1, h2]

/-- The cache key derived from one id is not the singleton key list derived
from a different id. -/
theorem key_mem_singleton (cid bid : Uuid) (hne : cid ≠ bid) :
    ("bike:" ++ cid) ∉ ["bike:" ++ bid] := by
  intro hmem
  exact hne (strAppendCancel "bike:" cid bid (List.mem_singleton.mp hmem))

/-- C9: for every component and bike mileage, the derived current mileage is
the bike's mileage minus the component's installed mileage, and
needs-replacement holds exactly when current mileage has reached max mileage;
in the spec scenario (bike mileage 500, installed mileage 100, max mileage
400) current mileage is 400 and replacement is due at the equality boundary.
Both values are functions, not fields: the `Component` row and the
`components` schema carry no column for them. -/
theorem C9_derived_mileage :
    (∀ (c : Component) (m : Int),
      c.currentMileage m = m - c.installedMileage ∧
      c.needsReplacement m = decide (m - c.installedMileage ≥ c.maxMileage)) ∧
    compA.currentMileage 500 = 400 ∧ compA.needsReplacement 500 = true := by
  refine ⟨fun c m => ⟨rfl, ?_⟩, by decide, by decide⟩
  simp [Component.needsReplacement, Component.currentMileage, ge_iff_le]

/-- C10: the repository update statements never change an entity's identity or
ownership linkage — for any stored bike row, any input and any clock, the
merged row keeps `bike_id`, `user_id` and `created_at`; for any stored
component row, the merged row keeps `id`, `bike_id` and `created_at` (a
component cannot be moved to another bike by update). -/
theorem C10_update_preserves_identity :
    ∀ (oldB inB : Bike) (oldC inC : Component) (now : Int),
      (mergeBike oldB inB now).bikeId = oldB.bikeId ∧
      (mergeBike oldB inB now).userId = oldB.userId ∧
      (mergeBike oldB inB now).createdAt = oldB.createdAt ∧
      (mergeComponent oldC inC now).id = oldC.id ∧
      (mergeComponent oldC inC now).bikeId = oldC.bikeId ∧
      (mergeComponent oldC inC now).createdAt = oldC.createdAt :=
  fun _ _ _ _ _ => ⟨rfl, rfl, rfl, rfl, rfl, rfl⟩

/-- C2: the update merges treat every zero-valued field (empty string, zero
number, zero timestamp) as "unchanged" and every non-zero field as an
overwrite, for each updatable bike field (mileage, year, bike name, type,
model) and component field (installed mileage, max mileage, name, brand,
model, installed-at); consequently a numeric field that is non-zero in the
stored row can never come out zero — 0 cannot be set explicitly. -/
theorem C2_zero_value_merge :
    ∀ (oldB inB : Bike) (oldC inC : Component) (now : Int),
      (inB.mileage = 0 → (mergeBike oldB inB now).mileage = oldB.mileage) ∧
      (inB.mileage ≠ 0 → (mergeBike oldB inB now).mileage = inB.mileage) ∧
      (inB.year = 0 → (mergeBike oldB inB now).year = oldB.year) ∧
      (inB.year ≠ 0 → (mergeBike oldB inB now).year = inB.year) ∧
      (inB.bikeName = "" → (mergeBike oldB inB now).bikeName = oldB.bikeName) ∧
      (inB.bikeName ≠ "" → (mergeBike oldB inB now).bikeName = inB.bikeName) ∧
      (inB.type = "" → (mergeBike oldB inB now).type = oldB.type) ∧
      (inB.type ≠ "" → (mergeBike oldB inB now).type = inB.type) ∧
      (inB.model = "" → (mergeBike oldB inB now).model = oldB.model) ∧
      (inB.model ≠ "" → (mergeBike oldB inB now).model = inB.model) ∧
      (inC.installedMileage = 0 →
        (mergeComponent oldC inC now).installedMileage = oldC.installedMileage) ∧
      (inC.installedMileage ≠ 0 →
        (mergeComponent oldC inC now).installedMileage = inC.installedMileage) ∧
      (inC.maxMileage = 0 →
        (mergeComponent oldC inC now).maxMileage = oldC.maxMileage) ∧
      (inC.maxMileage ≠ 0 →
        (mergeComponent oldC inC now).maxMileage = inC.maxMileage) ∧
      (inC.name = "" → (mergeComponent oldC inC now).name = oldC.name) ∧
      (inC.name ≠ "" → (mergeComponent oldC inC now).name = inC.name) ∧
      (inC.brand = "" → (mergeComponent oldC inC now).brand = oldC.brand) ∧
      (inC.brand ≠ "" → (mergeComponent oldC inC now).brand = inC.brand) ∧
      (inC.model = "" → (mergeComponent oldC inC now).model = oldC.model) ∧
      (inC.model ≠ "" → (mergeComponent oldC inC now).model = inC.model) ∧
      (inC.installedAt = 0 →
        (mergeComponent oldC inC now).installedAt = oldC.installedAt) ∧
      (inC.installedAt ≠ 0 →
        (mergeComponent oldC inC now).installedAt = inC.installedAt) ∧
      (oldB.mileage ≠ 0 → (mergeBike oldB inB now).mileage ≠ 0) ∧
      (oldB.year ≠ 0 → (mergeBike oldB inB now).year ≠ 0) ∧
      (oldC.installedMileage ≠ 0 →
        (mergeComponent oldC inC now).installedMileage ≠ 0) := by
  intro oldB inB oldC inC now
  repeat' apply And.intro
  all_goals intro h
  all_goals simp only [mergeBike, mergeComponent]
  all_goals split <;> simp_all

/-- Witness for C2: updating the sample stored bike (mileage 500) and the
sample stored component (installed mileage 100) with all-zero inputs changes
neither value. -/
theorem C2_zero_value_merge_witness :
    (mergeBike bikeA bikeZeroInput 7).mileage = 500 ∧
    (mergeComponent compA compZeroInput 7).installedMileage = 100 := by
  constructor
  · exact (C2_zero_value_merge bikeA bikeZeroInput compA compZeroInput 7).1 rfl
  · exact (C2_zero_value_merge bikeA bikeZeroInput compA compZeroInput
      7).2.2.2.2.2.2.2.2.2.2.1 rfl

/-- Counterexample to C4: a bike with owner `uuid.Nil`, empty type and
mileage −5 — malformed input by the claim's reading — does NOT produce a
validation error: `CreateBike` succeeds and issues the insert, because the
`Bike` struct declares no `validate` tags. -/
theorem C4_counterexample :
    (createBike badBike uidD (Except.ok bikeA)).1 = Except.ok bikeA ∧
    (createBike badBike uidD (Except.ok bikeA)).1 ≠ Except.error SvcErr.validation ∧
    hasStorageWrite (createBike badBike uidD (Except.ok bikeA)).2 = true := by
  have h1 : (createBike badBike uidD (Except.ok bikeA)).1 = Except.ok bikeA := rfl
  exact ⟨h1, by simp [h1], rfl⟩

/-- C4 (amended): `CreateBike` runs `validate.Struct`, but the `Bike` struct
carries no validation rules, so validation succeeds on every input — no
input, well-formed or malformed, yields a ValidationError; whenever the
storage insert succeeds the stored record is returned. -/
theorem C4_create_no_validation :
    ∀ (b : Bike) (fresh : Uuid) (r : Except RepoErr Bike),
      validateBike b = true ∧
      (createBike b fresh r).1 ≠ Except.error SvcErr.validation ∧
      (∀ created, r = Except.ok created →
        (createBike b fresh r).1 = Except.ok created) := by
  intro b fresh r
  refine ⟨rfl, ?_, ?_⟩
  · cases r with
    | error e =>
      simp [createBike, validateBike, bikeChecks]
      cases e <;> simp [liftRepo]
    | ok c => simp [createBike, validateBike, bikeChecks]
  · intro created hr
    subst hr
    rfl

/-- Witness for C4 (amended), at the malformed sample bike. -/
theorem C4_create_no_validation_witness :
    validateBike badBike = true ∧
    (createBike badBike uidD (Except.ok bikeA)).1 ≠ Except.error SvcErr.validation ∧
    (∀ created, (Except.ok bikeA : Except RepoErr Bike) = Except.ok created →
      (createBike badBike uidD (Except.ok bikeA)).1 = Except.ok created) :=
  C4_create_no_validation badBike uidD (Except.ok bikeA)

/-- C7: `GetBikeWithComponents` on a loadable bike returns the bike with an
empty component list both when the component lookup fails and when it
returns no components; the operation only ever fails when the id string is
malformed or the bike itself cannot be loaded. -/
theorem C7_components_degrade :
    ∀ (idStr : String) (u : Uuid) (b : Bike) (re : RepoErr)
      (bikeRes : Except RepoErr Bike)
      (compsRes : Except RepoErr (List Component)) (e : SvcErr),
      (uuidParse idStr = some u →
        (getBikeWithComponents idStr (Except.ok b) (Except.error re)).1
          = Except.ok (b, []) ∧
        (getBikeWithComponents idStr (Except.ok b) (Except.ok [])).1
          = Except.ok (b, [])) ∧
      ((getBikeWithComponents idStr bikeRes compsRes).1 = Except.error e →
        uuidParse idStr = none ∨ ∃ re2, bikeRes = Except.error re2) := by
  intro idStr u b re bikeRes compsRes e
  constructor
  · intro hp
    constructor <;> simp [getBikeWithComponents, hp]
  · intro herr
    cases hparse : uuidParse idStr with
    | none => exact Or.inl rfl
    | some u2 =>
      cases bikeRes with
      | error re2 => exact Or.inr ⟨re2, rfl⟩
      | ok bb =>
        exfalso
        cases compsRes <;> simp [getBikeWithComponents, hparse] at herr

/-- Witness for C7: the sample bike with a failed and with an empty component
lookup. -/
theorem C7_components_degrade_witness :
    (getBikeWithComponents "bbbbbbbb-bbbb-bbbb-bbbb-bbbbbbbbbbbb"
        (Except.ok bikeA) (Except.error RepoErr.other)).1 = Except.ok (bikeA, []) ∧
    (getBikeWithComponents "bbbbbbbb-bbbb-bbbb-bbbb-bbbbbbbbbbbb"
        (Except.ok bikeA) (Except.ok [])).1 = Except.ok (bikeA, []) :=
  (C7_components_degrade "bbbbbbbb-bbbb-bbbb-bbbb-bbbbbbbbbbbb" uidB bikeA
    RepoErr.other (Except.ok bikeA) (Except.ok []) SvcErr.storage).1 (by decide)

/-- Counterexample to C8: when the initial component load fails with a
generic storage failure (not no-rows), `DeleteComponent` propagates that
failure — the outcome is the unclassified storage error, not NotFound (no
delete is attempted, as the rest of the claim says). -/
theorem C8_counterexample :
    (deleteComponent "cccccccc-cccc-cccc-cccc-cccccccccccc"
        (Except.error RepoErr.other) (Except.ok ()) true).1
      = Except.error SvcErr.storage ∧
    Except.error SvcErr.storage ≠ (Except.error SvcErr.notFound : Except SvcErr Unit) ∧
    hasStorageWrite (deleteComponent "cccccccc-cccc-cccc-cccc-cccccccccccc"
        (Except.error RepoErr.other) (Except.ok ()) true).2 = false := by
  exact ⟨rfl, by simp, rfl⟩

/-- C8 (amended): whenever the initial load fails, `DeleteComponent` attempts
no delete and touches no cache entry, and returns the load's own error; in
particular a no-rows load failure surfaces as NotFound. -/
theorem C8_load_failure_aborts :
    ∀ (idStr : String) (u : Uuid) (re : RepoErr)
      (delRes : Except RepoErr Unit) (flag : Bool),
      uuidParse idStr = some u →
      (deleteComponent idStr (Except.error re) delRes flag).1
        = Except.error (liftRepo re) ∧
      hasStorageWrite (deleteComponent idStr (Except.error re) delRes flag).2
        = false ∧
      cacheDeletes (deleteComponent idStr (Except.error re) delRes flag).2 = [] ∧
      (re = RepoErr.notFound →
        (deleteComponent idStr (Except.error re) delRes flag).1
          = Except.error SvcErr.notFound) := by
  intro idStr u re delRes flag hp
  refine ⟨?_, ?_, ?_, ?_⟩
  · simp [deleteComponent, hp]
  · simp [deleteComponent, hp, hasStorageWrite]
  · simp [deleteComponent, hp, cacheDeletes]
  · intro h
    subst h
    simp [deleteComponent, hp, liftRepo]

/-- Witness for C8 (amended): a no-rows load failure at the sample component
id yields NotFound. -/
theorem C8_load_failure_aborts_witness :
    (deleteComponent "cccccccc-cccc-cccc-cccc-cccccccccccc"
        (Except.error RepoErr.notFound) (Except.ok ()) true).1
      = Except.error SvcErr.notFound :=
  (C8_load_failure_aborts "cccccccc-cccc-cccc-cccc-cccccccccccc"
    "cccccccc-cccc-cccc-cccc-cccccccccccc" RepoErr.notFound (Except.ok ()) true
    (by decide)).2.2.2 rfl

/-- C3: every component mutation that reaches and succeeds at the storage
layer deletes exactly one cache key, the one derived from the component's
`bike_id` (for update, the `bike_id` the RETURNING row carries; for delete,
the loaded component's); a key derived from any other id — in particular from
the component's own id — is never deleted. -/
theorem C3_cache_invalidation_key :
    ∀ (c : Component) (fresh : Uuid) (flag : Bool)
      (created updated comp : Component) (idStr : String) (u cid : Uuid),
      (validateComponent c = true →
        cacheDeletes (createComponent c fresh (Except.ok created) flag).2
          = ["bike:" ++ c.bikeId] ∧
        (cid ≠ c.bikeId →
          ("bike:" ++ cid) ∉
            cacheDeletes (createComponent c fresh (Except.ok created) flag).2)) ∧
      (validateComponent c = true →
        cacheDeletes (updateComponent c (Except.ok updated) flag).2
          = ["bike:" ++ updated.bikeId] ∧
        (cid ≠ updated.bikeId →
          ("bike:" ++ cid) ∉
            cacheDeletes (updateComponent c (Except.ok updated) flag).2)) ∧
      (uuidParse idStr = some u →
        cacheDeletes (deleteComponent idStr (Except.ok comp) (Except.ok ()) flag).2
          = ["bike:" ++ comp.bikeId] ∧
        (cid ≠ comp.bikeId →
          ("bike:" ++ cid) ∉
            cacheDeletes (deleteComponent idStr (Except.ok comp) (Except.ok ()) flag).2)) := by
  intro c fresh flag created updated comp idStr u cid
  refine ⟨?_, ?_, ?_⟩
  · intro hv
    have hd : cacheDeletes (createComponent c fresh (Except.ok created) flag).2
        = ["bike:" ++ c.bikeId] := by
      by_cases hid : c.id = nilUuid <;>
        simp [createComponent, hv, cacheDeletes, hid]
    exact ⟨hd, fun hne => hd ▸ key_mem_singleton cid c.bikeId hne⟩
  · intro hv
    have hd : cacheDeletes (updateComponent c (Except.ok updated) flag).2
        = ["bike:" ++ updated.bikeId] := by
      simp [updateComponent, hv, cacheDeletes]
    exact ⟨hd, fun hne => hd ▸ key_mem_singleton cid updated.bikeId hne⟩
  · intro hp
    have hd : cacheDeletes (deleteComponent idStr (Except.ok comp) (Except.ok ()) flag).2
        = ["bike:" ++ comp.bikeId] := by
      simp [deleteComponent, hp, cacheDeletes]
    exact ⟨hd, fun hne => hd ▸ key_mem_singleton cid comp.bikeId hne⟩

/-- Witness for C3: creating the sample component deletes exactly the cache
key of its owning bike and not the key derived from its own id. -/
theorem C3_cache_invalidation_key_witness :
    cacheDeletes (createComponent compA uidD (Except.ok compA) true).2
      = ["bike:" ++ compA.bikeId] ∧
    ("bike:" ++ uidC) ∉
      cacheDeletes (createComponent compA uidD (Except.ok compA) true).2 := by
  have h := (C3_cache_invalidation_key compA uidD true compA compA compA
    "cccccccc-cccc-cccc-cccc-cccccccccccc" uidC uidC).1 (by decide)
  exact ⟨h.1, h.2 (by decide)⟩

/-- C5: `GetBikeByID` fails with the invalid-identifier error (and does
nothing else) when the id is not a UUID; on a cache hit that unmarshals it
returns the cached bike without reading storage; on a cache error it reads
storage and, when that succeeds, also writes the key with a 15-minute TTL;
and the outcome never depends on whether the cache write succeeded. -/
theorem C5_cache_first_read :
    ∀ (idStr : String) (u : Uuid) (cacheRes : Except Unit CacheVal)
      (v : CacheVal) (cb b : Bike) (repoRes : Except RepoErr Bike) (setOk : Bool),
      (uuidParse idStr = none →
        getBikeByID idStr cacheRes repoRes setOk = (Except.error SvcErr.invalidId, [])) ∧
      (uuidParse idStr = some u → unmarshalBike v = some cb →
        (getBikeByID idStr (Except.ok v) repoRes setOk).1 = Except.ok cb ∧
        Eff.repoGetBike u ∉ (getBikeByID idStr (Except.ok v) repoRes setOk).2) ∧
      (uuidParse idStr = some u →
        (getBikeByID idStr (Except.error ()) (Except.ok b) setOk).1 = Except.ok b ∧
        Eff.repoGetBike u ∈ (getBikeByID idStr (Except.error ()) (Except.ok b) setOk).2 ∧
        Eff.cacheSet ("bike:" ++ idStr) (15 * goMinute)
          ∈ (getBikeByID idStr (Except.error ()) (Except.ok b) setOk).2) ∧
      getBikeByID idStr cacheRes repoRes true = getBikeByID idStr cacheRes repoRes false := by
  intro idStr u cacheRes v cb b repoRes setOk
  refine ⟨?_, ?_, ?_, rfl⟩
  · intro hp
    simp [getBikeByID, hp]
  · intro hp hv
    simp [getBikeByID, hp, hv]
  · intro hp
    simp [getBikeByID, hp]

/-- Witness for C5: a cache hit at the sample bike id is served without any
storage read even while storage is failing. -/
theorem C5_cache_first_read_witness :
    (getBikeByID "bbbbbbbb-bbbb-bbbb-bbbb-bbbbbbbbbbbb"
        (Except.ok (CacheVal.bikeJson bikeA)) (Except.error RepoErr.other) false).1
      = Except.ok bikeA ∧
    Eff.repoGetBike uidB ∉
      (getBikeByID "bbbbbbbb-bbbb-bbbb-bbbb-bbbbbbbbbbbb"
        (Except.ok (CacheVal.bikeJson bikeA)) (Except.error RepoErr.other) false).2 :=
  (C5_cache_first_read "bbbbbbbb-bbbb-bbbb-bbbb-bbbbbbbbbbbb" uidB
    (Except.ok (CacheVal.bikeJson bikeA)) (CacheVal.bikeJson bikeA) bikeA bikeA
    (Except.error RepoErr.other) false).2.1 (by decide) rfl

/-- C6: across all six mutating service operations — bike create, update,
delete and component create, update, delete — a validation or invalid-id
outcome is produced with an empty effect trace (nothing reaches storage or
cache), and whenever the storage write itself fails, no cache entry is
deleted: invalidation only follows a confirmed successful write. -/
theorem C6_no_side_effects_on_error :
    ∀ (b : Bike) (freshB : Uuid) (rB : Except RepoErr Bike)
      (c : Component) (freshC : Uuid) (rC : Except RepoErr Component)
      (idStr : String) (rU : Except RepoErr Unit)
      (getRes : Except RepoErr Component) (delRes : Except RepoErr Unit)
      (flag : Bool) (e : RepoErr),
      ((createBike b freshB rB).1 = Except.error SvcErr.validation →
        (createBike b freshB rB).2 = []) ∧
      (rB = Except.error e → cacheDeletes (createBike b freshB rB).2 = []) ∧
      ((updateBike b rB flag).1 = Except.error SvcErr.validation →
        (updateBike b rB flag).2 = []) ∧
      (rB = Except.error e → cacheDeletes (updateBike b rB flag).2 = []) ∧
      (uuidParse idStr = none →
        deleteBike idStr rU flag = (Except.error SvcErr.invalidId, [])) ∧
      (rU = Except.error e → cacheDeletes (deleteBike idStr rU flag).2 = []) ∧
      ((createComponent c freshC rC flag).1 = Except.error SvcErr.validation →
        (createComponent c freshC rC flag).2 = []) ∧
      (rC = Except.error e → cacheDeletes (createComponent c freshC rC flag).2 = []) ∧
      ((updateComponent c rC flag).1 = Except.error SvcErr.validation →
        (updateComponent c rC flag).2 = []) ∧
      (rC = Except.error e → cacheDeletes (updateComponent c rC flag).2 = []) ∧
      (uuidParse idStr = none →
        deleteComponent idStr getRes delRes flag = (Except.error SvcErr.invalidId, [])) ∧
      (getRes = Except.error e →
        cacheDeletes (deleteComponent idStr getRes delRes flag).2 = []) ∧
      (delRes = Except.error e →
        cacheDeletes (deleteComponent idStr getRes delRes flag).2 = []) := by
  intro b freshB rB c freshC rC idStr rU getRes delRes flag e
  refine ⟨?_, ?_, ?_, ?_, ?_, ?_, ?_, ?_, ?_, ?_, ?_, ?_, ?_⟩
  · intro h
    cases rB with
    | ok v => simp [createBike, validateBike, bikeChecks] at h
    | error e2 =>
      simp [createBike, validateBike, bikeChecks] at h
      cases e2 <;> simp [liftRepo] at h
  · intro he
    subst he
    simp [createBike, validateBike, bikeChecks, cacheDeletes]
  · intro h
    cases rB with
    | ok v => simp [updateBike, validateBike, bikeChecks] at h
    | error e2 =>
      simp [updateBike, validateBike, bikeChecks] at h
      cases e2 <;> simp [liftRepo] at h
  · intro he
    subst he
    simp [updateBike, validateBike, bikeChecks, cacheDeletes]
  · intro hp
    simp [deleteBike, hp]
  · intro he
    subst he
    cases hp : uuidParse idStr <;> simp [deleteBike, hp, cacheDeletes]
  · intro h
    cases hv : validateComponent c with
    | false => simp [createComponent, hv]
    | true =>
      cases rC with
      | ok v => simp [createComponent, hv] at h
      | error e2 =>
        simp [createComponent, hv] at h
        cases e2 <;> simp [liftRepo] at h
  · intro he
    subst he
    cases hv : validateComponent c <;>
      simp [createComponent, hv, cacheDeletes]
  · intro h
    cases hv : validateComponent c with
    | false => simp [updateComponent, hv]
    | true =>
      cases rC with
      | ok v => simp [updateComponent, hv] at h
      | error e2 =>
        simp [updateComponent, hv] at h
        cases e2 <;> simp [liftRepo] at h
  · intro he
    subst he
    cases hv : validateComponent c <;>
      simp [updateComponent, hv, cacheDeletes]
  · intro hp
    simp [deleteComponent, hp]
  · intro he
    subst he
    cases hp : uuidParse idStr <;> simp [deleteComponent, hp, cacheDeletes]
  · intro he
    subst he
    cases hp : uuidParse idStr with
    | none => simp [deleteComponent, hp, cacheDeletes]
    | some u2 =>
      cases getRes <;> simp [deleteComponent, hp, cacheDeletes]

/-- Witness for C6: a failed bike update deletes nothing from the cache, and
a malformed delete id produces the invalid-id error with an empty trace. -/
theorem C6_no_side_effects_on_error_witness :
    cacheDeletes (updateBike bikeA (Except.error RepoErr.other) true).2 = [] ∧
    deleteBike "oops" (Except.ok ()) true = (Except.error SvcErr.invalidId, []) := by
  have h := C6_no_side_effects_on_error bikeA uidD (Except.error RepoErr.other)
    compA uidD (Except.ok compA) "oops" (Except.ok ()) (Except.ok compA)
    (Except.ok ()) true RepoErr.other
  exact ⟨h.2.2.2.1 rfl, h.2.2.2.2.1 (by decide)⟩

/-- C1: for every request carrying a valid identity, on each of the nine
ownership-checked handlers (GetBike, GetBikeWithComponents, GetBikeWithUser,
UpdateBike, DeleteBike, GetComponent, CreateComponent, UpdateComponent,
DeleteComponent): when the owning bike resolves (for components, via the
parent bike of the loaded component) and the requester is a non-admin whose
user id differs from the owner's, the outcome is Forbidden; an admin is never
answered with Forbidden, whatever the collaborators return. -/
theorem C1_ownership_rule :
    (∀ (env : HEnv) (p : TokenPayload) (op : Op) (b : Bike),
      ownerBike env op = some b → p.role ≠ Role.admin → p.userId ≠ b.userId →
      runOp env (some p) op = HOut.forbidden) ∧
    (∀ (env : HEnv) (p : TokenPayload) (op : Op),
      p.role = Role.admin → runOp env (some p) op ≠ HOut.forbidden) := by
  constructor
  · intro env p op b hob hr hu
    cases op with
    | getBike id =>
      simp only [ownerBike] at hob
      cases hs : env.bikeSvc id with
      | error e => rw [hs] at hob; simp [Except.toOption] at hob
      | ok bike =>
        rw [hs] at hob
        simp [Except.toOption] at hob
        subst hob
        simp only [runOp, hs]
        exact authz_deny p bike.userId _ hr hu
    | getBikeWithComponents id =>
      simp only [ownerBike] at hob
      cases hs : env.bikeWithComps id with
      | error e => rw [hs] at hob; simp [Except.toOption] at hob
      | ok bc =>
        rw [hs] at hob
        simp [Except.toOption] at hob
        subst hob
        simp only [runOp, hs]
        exact authz_deny p bc.1.userId _ hr hu
    | getBikeWithUser id =>
      simp only [ownerBike] at hob
      cases hs : env.bikeSvc id with
      | error e => rw [hs] at hob; simp [Except.toOption] at hob
      | ok bike =>
        rw [hs] at hob
        simp [Except.toOption] at hob
        subst hob
        simp only [runOp, hs]
        exact authz_deny p bike.userId _ hr hu
    | updateBike id body =>
      simp only [ownerBike] at hob
      cases hs : env.bikeSvc id with
      | error e => rw [hs] at hob; simp [Except.toOption] at hob
      | ok bike =>
        rw [hs] at hob
        simp [Except.toOption] at hob
        subst hob
        simp only [runOp, hs]
        exact authz_deny p bike.userId _ hr hu
    | deleteBike id =>
      simp only [ownerBike] at hob
      cases hs : env.bikeSvc id with
      | error e => rw [hs] at hob; simp [Except.toOption] at hob
      | ok bike =>
        rw [hs] at hob
        simp [Except.toOption] at hob
        subst hob
        simp only [runOp, hs]
        exact authz_deny p bike.userId _ hr hu
    | getComponent id =>
      simp only [ownerBike, Option.bind_eq_some] at hob
      obtain ⟨cc, hc, hb⟩ := hob
      cases hcs : env.compSvc id with
      | error e => rw [hcs] at hc; simp [Except.toOption] at hc
      | ok comp =>
        rw [hcs] at hc
        simp [Except.toOption] at hc
        subst hc
        cases hbs : env.bikeSvc comp.bikeId with
        | error e => rw [hbs] at hb; simp [Except.toOption] at hb
        | ok bike =>
          rw [hbs] at hb
          simp [Except.toOption] at hb
          subst hb
          simp only [runOp, hcs, hbs]
          exact authz_deny p bike.userId _ hr hu
    | createComponent body =>
      simp only [ownerBike, Option.bind_eq_some] at hob
      obtain ⟨req, hreq, hb⟩ := hob
      subst hreq
      cases hbs : env.bikeSvc req.bikeId with
      | error e => rw [hbs] at hb; simp [Except.toOption] at hb
      | ok bike =>
        rw [hbs] at hb
        simp [Except.toOption] at hb
        subst hb
        simp only [runOp, hbs]
        exact authz_deny p bike.userId _ hr hu
    | updateComponent id body =>
      simp only [ownerBike, Option.bind_eq_some] at hob
      obtain ⟨cc, hc, hb⟩ := hob
      cases hcs : env.compSvc id with
      | error e => rw [hcs] at hc; simp [Except.toOption] at hc
      | ok comp =>
        rw [hcs] at hc
        simp [Except.toOption] at hc
        subst hc
        cases hbs : env.bikeSvc comp.bikeId with
        | error e => rw [hbs] at hb; simp [Except.toOption] at hb
        | ok bike =>
          rw [hbs] at hb
          simp [Except.toOption] at hb
          subst hb
          simp only [runOp, hcs, hbs]
          exact authz_deny p bike.userId _ hr hu
    | deleteComponent id =>
      simp only [ownerBike, Option.bind_eq_some] at hob
      obtain ⟨cc, hc, hb⟩ := hob
      cases hcs : env.compSvc id with
      | error e => rw [hcs] at hc; simp [Except.toOption] at hc
      | ok comp =>
        rw [hcs] at hc
        simp [Except.toOption] at hc
        subst hc
        cases hbs : env.bikeSvc comp.bikeId with
        | error e => rw [hbs] at hb; simp [Except.toOption] at hb
        | ok bike =>
          rw [hbs] at hb
          simp [Except.toOption] at hb
          subst hb
          simp only [runOp, hcs, hbs]
          exact authz_deny p bike.userId _ hr hu
  · intro env p op hr
    cases op <;> simp only [runOp, authz] <;> (repeat' split) <;> simp_all

/-- Witness for C1: the non-owner non-admin is denied on GetBike; the
non-owner admin is not denied on DeleteBike. -/
theorem C1_ownership_rule_witness :
    runOp envA (some tokenMallory)
      (Op.getBike "bbbbbbbb-bbbb-bbbb-bbbb-bbbbbbbbbbbb") = HOut.forbidden ∧
    runOp envA (some tokenAdmin)
      (Op.deleteBike "bbbbbbbb-bbbb-bbbb-bbbb-bbbbbbbbbbbb") ≠ HOut.forbidden := by
  constructor
  · exact C1_ownership_rule.1 envA tokenMallory
      (Op.getBike "bbbbbbbb-bbbb-bbbb-bbbb-bbbbbbbbbbbb") bikeA
      (by decide) (by decide) (by decide)
  · exact C1_ownership_rule.2 envA tokenAdmin
      (Op.deleteBike "bbbbbbbb-bbbb-bbbb-bbbb-bbbbbbbbbbbb") rfl

end BikeSvc
